import Mathlib

/-!
Verification of the TPCA character movement and animation core.

The development shallowly embeds the movement-component and animation-instance
logic of the TPCA repository (Unreal Engine third-person character extension)
over exact rational arithmetic.  Single-precision float fields are modelled by
`ℚ`; the few genuinely irrational engine primitives (vector normalisation by a
square root, the cosine of a configured angle) are passed in as explicit
parameters so the surrounding control flow can be translated verbatim.
-/

namespace TPCA

/-- Engine constant `KINDA_SMALL_NUMBER` (1e-4). -/
def KINDA_SMALL_NUMBER : ℚ := 1 / 10000

/-- Engine constant `UCharacterMovementComponent::MIN_TICK_TIME` (1e-6). -/
def MIN_TICK_TIME : ℚ := 1 / 1000000

/-- Engine constant `BRAKE_TO_STOP_VELOCITY` (10). -/
def BRAKE_TO_STOP_VELOCITY : ℚ := 10

/-- Constant `UExtCharacterMovementComponent::AngleTolerance = 1e-3f`. -/
def AngleTolerance : ℚ := 1 / 1000

/-- Engine movement mode enum `EMovementMode`. -/
inductive EMovementMode where
  | MOVE_None
  | MOVE_Walking
  | MOVE_NavWalking
  | MOVE_Falling
  | MOVE_Swimming
  | MOVE_Flying
  | MOVE_Custom
deriving DecidableEq, Repr

export EMovementMode (MOVE_None MOVE_Walking MOVE_NavWalking MOVE_Falling MOVE_Swimming MOVE_Flying MOVE_Custom)

/-- Cardinal direction enum `ECardinalDirection` used by the animation layer. -/
inductive ECardinalDirection where
  | North
  | East
  | South
  | West
deriving DecidableEq, Repr

/-- Engine `IsMovingOnGround()` for a character: the movement mode is Walking or
NavWalking (the updated component is assumed present, as everywhere in the
embedded per-tick code). -/
def isMovingOnGround (mode : EMovementMode) : Bool :=
  mode = MOVE_Walking || mode = MOVE_NavWalking

/-- Engine `FMath::GetRangePct(FVector2D(a, b), v) = (v - a) / (b - a)`. -/
def getRangePct (a b v : ℚ) : ℚ := (v - a) / (b - a)

/-- Engine `FMath::Clamp` over rationals. -/
def clampQ (v lo hi : ℚ) : ℚ := min (max v lo) hi

/-- Engine `FMath::Lerp(a, b, alpha) = a + alpha * (b - a)`. -/
def lerpQ (a b alpha : ℚ) : ℚ := a + alpha * (b - a)

/-- Engine `FMath::FindDeltaAngleDegrees(A1, A2)`: the difference `A2 - A1`
folded once into [-180, 180] (inputs are assumed normalised, as in the engine). -/
def findDeltaAngleDegrees (a1 a2 : ℚ) : ℚ :=
  let delta := a2 - a1
  if delta > 180 then delta - 360
  else if delta < -180 then delta + 360
  else delta

/-- Engine `FMath::UnwindDegrees`: repeatedly subtract (add) 360 while the angle
is above 180 (below -180).  Written in closed form: the ceiling counts exactly
the iterations of the engine's while loops. -/
def unwindDegrees (a : ℚ) : ℚ :=
  if a > 180 then a - 360 * ⌈(a - 180) / 360⌉
  else if a < -180 then a + 360 * ⌈(-180 - a) / 360⌉
  else a

/-- Engine `FRotator::NormalizeAxis`: clamp into [0,360) then shift the upper
half down, producing a value in (-180, 180]. -/
def normalizeAxis (a : ℚ) : ℚ :=
  let c := a - 360 * ⌊a / 360⌋
  if c > 180 then c - 360 else c

/-- Engine `FMath::RoundToInt(x) = FloorToInt(x + 0.5)`. -/
def roundToInt (x : ℚ) : ℤ := ⌊x + 1 / 2⌋

/-! Section: Pivot-turn direction classification (claim C5)

`UExtCharacterAnimInstance::NativeUpdatePivotTurn`, the direction-bucketing
part (ExtCharacterAnimInstance.cpp lines 367-387): classify the movement drift
angle into one of four cardinal directions. -/

/-- Direction bucketing of `NativeUpdatePivotTurn`: for positive drift, below
50 degrees is North, above 130 is South, otherwise East; symmetrically for
non-positive drift with West in place of East. -/
def pivotTurnDirectionFromDrift (movementDrift : ℚ) : ECardinalDirection :=
  if movementDrift > 0 then
    if movementDrift < 50 then ECardinalDirection.North
    else if movementDrift > 130 then ECardinalDirection.South
    else ECardinalDirection.East
  else
    if movementDrift > -50 then ECardinalDirection.North
    else if movementDrift < -130 then ECardinalDirection.South
    else ECardinalDirection.West

/-! Section: Gait scale and play-rate deviation split (claims C3, C4)

`UExtCharacterAnimInstance::NativeUpdateGaitScale`
(ExtCharacterAnimInstance.cpp lines 241-354). -/

/-- Standing gait scale (lines 292-317): piecewise-linear map from ground speed
through the three speed bands, clamped at 3 above the sprint speed. -/
def gaitScaleStanding (walkSpeed runSpeed sprintSpeed groundSpeed : ℚ) : ℚ :=
  if groundSpeed ≤ walkSpeed then getRangePct 0 walkSpeed groundSpeed
  else if groundSpeed ≤ runSpeed then 1 + getRangePct walkSpeed runSpeed groundSpeed
  else if groundSpeed ≤ sprintSpeed then 2 + getRangePct runSpeed sprintSpeed groundSpeed
  else 3

/-- Crouched gait scale (lines 254-272): two speed bands, clamped at 2 above
the crouched run speed. -/
def gaitScaleCrouched (walkSpeedCrouched runSpeedCrouched groundSpeed : ℚ) : ℚ :=
  if groundSpeed ≤ walkSpeedCrouched then getRangePct 0 walkSpeedCrouched groundSpeed
  else if groundSpeed ≤ runSpeedCrouched then 1 + getRangePct walkSpeedCrouched runSpeedCrouched groundSpeed
  else 2

/-- Play-rate share of a below-nominal speed deviation
(lines 277 and 322, identical in the crouched and standing code paths):
`PlayRateDeviation = FMath::Max(-0.15f, Deviation)`. -/
def playRateDeviation (deviation : ℚ) : ℚ := max (-(3 / 20)) deviation

/-- Speed-warp share of a below-nominal speed deviation
(lines 278 and 323, identical in the crouched and standing code paths):
`SpeedWarpDeviation = FMath::Max(-0.85f, Deviation - PlayRateDeviation)`. -/
def speedWarpDeviation (deviation : ℚ) : ℚ :=
  max (-(17 / 20)) (deviation - playRateDeviation deviation)

/-! Section: Sprint capability (claim C2)

`UExtCharacterMovementComponent::CanSprintInCurrentState`
(ExtCharacterMovementComponent.cpp lines 2120-2131). -/

/-- State read by `CanSprintInCurrentState`.  `accelNormal2DDotForward` is the
float dot product `FVector::DotProduct(Acceleration.GetSafeNormal2D(),
UpdatedComponent->GetForwardVector())`; it is carried as a field because safe
normalisation divides by an (irrational) square root. -/
structure SprintQueryState where
  canEverSprint : Bool
  movementMode : EMovementMode
  hasExtOwner : Bool
  isRagdoll : Bool
  isGettingUp : Bool
  bIsCrouched : Bool
  velocitySizeSq2D : ℚ
  maxSprintAngle : ℚ
  accelNormal2DDotForward : ℚ
deriving DecidableEq, Repr

/-- Embeds `CanSprintInCurrentState`: the conjunction of the sprint capability flag,
moving on ground, a valid owner, not ragdoll, not getting up, not crouched,
a 2D speed above `KINDA_SMALL_NUMBER`, and (when `MaxSprintAngle` is positive)
the acceleration direction within `MaxSprintAngle` degrees of the forward
vector.  `cosDeg` stands for the engine's `FMath::Cos(DegreesToRadians(·))`,
passed as a parameter because the cosine is not rational. -/
def CanSprintInCurrentState (cosDeg : ℚ → ℚ) (s : SprintQueryState) : Bool :=
  s.canEverSprint
    && isMovingOnGround s.movementMode
    && s.hasExtOwner
    && !s.isRagdoll
    && !s.isGettingUp
    && !s.bIsCrouched
    && decide (s.velocitySizeSq2D > KINDA_SMALL_NUMBER)
    && (decide (s.maxSprintAngle ≤ 0)
        || decide (s.accelNormal2DDotForward ≥ cosDeg s.maxSprintAngle))

/-! Section: Pivot-turn flag (claim C1)

`UExtCharacterMovementComponent::UpdateCharacterStateBeforeMovement`, the
pivot-turn portion of the Walking/NavWalking case (lines 1332-1383), and the
pivot-turn reset of `OnMovementModeChanged` (lines 1263-1268). -/

/-- Inputs of the per-tick pivot-turn update.  `movementDeflection` is the
float dot product `FVector::DotProduct(LastMovementAcceleration.GetSafeNormal2D(),
LastMovementVelocity.GetSafeNormal2D())` computed at line 1343, carried as a
field because safe normalisation divides by an (irrational) square root. -/
structure PivotTurnTickInput where
  movementMode : EMovementMode
  bEnablePivotTurn : Bool
  movementDeflection : ℚ
  lastAcceleratedVelocitySizeSq2D : ℚ
  pivotTurnMinSpeed : ℚ
  accelerationSizeSq2D : ℚ
  velocitySizeSq2D : ℚ
  isLanding : Bool
  isGettingUp : Bool
  isRagdoll : Bool
deriving DecidableEq, Repr

/-- New value of `bIsPivotTurning` after `UpdateCharacterStateBeforeMovement`.
Only the Walking/NavWalking case touches the flag: when already pivoting it is
cleared if the deflection rises above cos(45 deg) = 0.7071068 or both current
acceleration and velocity are (2D-)negligible; when not pivoting it is set if
pivot turn is enabled, the deflection is below -0.173648 (an angle above
100 deg), the last accelerated speed exceeds `PivotTurnMinSpeed` and the
character is not landing, getting up or a ragdoll. -/
def updatePivotTurnFlag (inp : PivotTurnTickInput) (bIsPivotTurning : Bool) : Bool :=
  if inp.movementMode = MOVE_Walking ∨ inp.movementMode = MOVE_NavWalking then
    if bIsPivotTurning then
      if inp.movementDeflection > 7071068 / 10000000
          ∨ (¬(inp.accelerationSizeSq2D > KINDA_SMALL_NUMBER)
             ∧ ¬(inp.velocitySizeSq2D > KINDA_SMALL_NUMBER)) then
        false
      else
        bIsPivotTurning
    else
      if inp.bEnablePivotTurn
          ∧ inp.movementDeflection < -(173648 / 1000000)
          ∧ inp.lastAcceleratedVelocitySizeSq2D > inp.pivotTurnMinSpeed ^ 2
          ∧ ¬inp.isLanding
          ∧ ¬inp.isGettingUp
          ∧ ¬inp.isRagdoll then
        true
      else
        bIsPivotTurning
  else
    bIsPivotTurning

/-- New value of `bIsPivotTurning` after `OnMovementModeChanged` (lines
1263-1268): the flag survives only a Walking/NavWalking interchange; every
other mode change resets it to false. -/
def onMovementModeChangedPivotTurnFlag (movementMode previousMovementMode : EMovementMode)
    (bIsPivotTurning : Bool) : Bool :=
  if ¬(movementMode = MOVE_Walking ∧ previousMovementMode = MOVE_NavWalking)
      ∧ ¬(movementMode = MOVE_NavWalking ∧ previousMovementMode = MOVE_Walking) then
    false
  else
    bIsPivotTurning

/-! Section: Sprint toggle (claim C6)

`UExtCharacterMovementComponent::Sprint` / `UnSprint` (lines 2081-2118) and
the sprint resolution step of `UpdateCharacterStateBeforeMovement`
(lines 1321-1330). -/

/-- Lifecycle notifications fired by the sprint setters. -/
inductive SprintEvent where
  | startSprint
  | endSprint
deriving DecidableEq, Repr

/-- Embeds `Sprint(false)`: with valid data, set `bIsSprinting` and fire
`OnStartSprint` unconditionally (lines 2081-2100, non-client-simulation path;
the owner is assumed present as asserted by the surrounding code). -/
def Sprint (hasValidData : Bool) (bIsSprinting : Bool) : Bool × List SprintEvent :=
  if ¬hasValidData then (bIsSprinting, [])
  else (true, [SprintEvent.startSprint])

/-- Embeds `UnSprint(false)`: with valid data, clear `bIsSprinting` and fire
`OnEndSprint` unconditionally (lines 2102-2118, non-client-simulation path). -/
def UnSprint (hasValidData : Bool) (bIsSprinting : Bool) : Bool × List SprintEvent :=
  if ¬hasValidData then (bIsSprinting, [])
  else (false, [SprintEvent.endSprint])

/-- Context of the sprint resolution step of `UpdateCharacterStateBeforeMovement`:
`allowedToSprint` is the cached result of `CanSprintInCurrentState()` and
`wantsToSprint` the predicted input flag; both are unchanged between two
successive invocations in the idempotence claim. -/
structure SprintToggleContext where
  hasValidData : Bool
  allowedToSprint : Bool
  wantsToSprint : Bool
deriving DecidableEq, Repr

/-- Sprint resolution step (lines 1321-1330): un-sprint when sprinting but not
allowed or not wanted; sprint when allowed, wanted and not yet sprinting;
otherwise do nothing. -/
def sprintToggleStep (ctx : SprintToggleContext) (bIsSprinting : Bool) :
    Bool × List SprintEvent :=
  if (¬ctx.allowedToSprint ∨ ¬ctx.wantsToSprint) ∧ bIsSprinting then
    UnSprint ctx.hasValidData bIsSprinting
  else if ctx.allowedToSprint ∧ ctx.wantsToSprint ∧ ¬bIsSprinting then
    Sprint ctx.hasValidData bIsSprinting
  else
    (bIsSprinting, [])

/-- Number of `OnStartSprint` notifications in an event list. -/
def startSprintCount (events : List SprintEvent) : ℕ :=
  (events.filter (fun e => e = SprintEvent.startSprint)).length

/-! Section: Vectors

Exact-rational model of `FVector`. -/

/-- Rational 3D vector standing for `FVector`. -/
structure Vec3 where
  x : ℚ
  y : ℚ
  z : ℚ
deriving DecidableEq, Repr

/-- Zero vector `FVector::ZeroVector`. -/
def Vec3.zero : Vec3 := ⟨0, 0, 0⟩

/-- Componentwise sum. -/
def Vec3.add (a b : Vec3) : Vec3 := ⟨a.x + b.x, a.y + b.y, a.z + b.z⟩

/-- Componentwise difference. -/
def Vec3.sub (a b : Vec3) : Vec3 := ⟨a.x - b.x, a.y - b.y, a.z - b.z⟩

/-- Scalar multiple. -/
def Vec3.scale (c : ℚ) (a : Vec3) : Vec3 := ⟨c * a.x, c * a.y, c * a.z⟩

/-- Dot product `FVector::operator|`. -/
def Vec3.dot (a b : Vec3) : ℚ := a.x * b.x + a.y * b.y + a.z * b.z

/-- Embeds `FVector::SizeSquared`. -/
def Vec3.sizeSquared (a : Vec3) : ℚ := a.dot a

/-- Embeds `FVector::SizeSquared2D`. -/
def Vec3.sizeSquared2D (a : Vec3) : ℚ := a.x * a.x + a.y * a.y

/-- Embeds `FVector::IsZero` (exact comparison with the zero vector). -/
def Vec3.isZero (a : Vec3) : Bool := a = Vec3.zero

/-- Embeds `FVector::ProjectOnToNormal(n) = n * (this | n)` for a unit normal `n`. -/
def Vec3.projectOnToNormal (a n : Vec3) : Vec3 := Vec3.scale (a.dot n) n

/-! Section: Quantized replication codec (claim C8)

`SerializeQuantizedVector` (TPCATypes.cpp lines 13-31) dispatches each
quantization tier to the engine's `SerializePackedVector<ScaleFactor,
MaxBitsPerComponent>`: tier RoundTwoDecimals uses scale 100 with 30 bits,
RoundOneDecimal scale 10 with 27 bits, and RoundWholeNumber scale 1 with
24 bits, the repository comment stating the intent of supporting a maximum
magnitude of 2^30 / 100 (about 10 million) at two decimals. -/

/-- Engine `EVectorQuantization` tiers. -/
inductive EVectorQuantization where
  | RoundWholeNumber
  | RoundOneDecimal
  | RoundTwoDecimals
deriving DecidableEq, Repr

/-- Scale factor and per-component bit budget selected by
`SerializeQuantizedVector` for each tier (lines 21-30; the `default` case of
the switch is the whole-number tier). -/
def serializeQuantizedVectorParams : EVectorQuantization → ℚ × ℕ
  | EVectorQuantization.RoundTwoDecimals => (100, 30)
  | EVectorQuantization.RoundOneDecimal => (10, 27)
  | EVectorQuantization.RoundWholeNumber => (1, 24)

/-- Modelled from the spec: per-component write half of the engine's
`SerializePackedVector<ScaleFactor, MaxBitsPerComponent>` (engine code, not
part of this repository).  The component is scaled, rounded to the nearest
integer and clamped into the serialisable range
`[-2^MaxBitsPerComponent, 2^MaxBitsPerComponent - 1]` fixed by the bit budget
("each trading off maximum magnitude for precision within a fixed bit
budget"). -/
def writePackedComponent (scaleFactor : ℚ) (maxBitsPerComponent : ℕ) (x : ℚ) : ℤ :=
  min (max (roundToInt (x * scaleFactor)) (-(2 ^ maxBitsPerComponent : ℤ)))
    ((2 ^ maxBitsPerComponent : ℤ) - 1)

/-- Modelled from the spec: per-component read half of the engine's
`SerializePackedVector`: the transmitted integer divided by the scale factor. -/
def readPackedComponent (scaleFactor : ℚ) (i : ℤ) : ℚ := (i : ℚ) / scaleFactor

/-- Encode-then-decode of one vector component at a quantization tier, with the
scale factor and bit budget chosen by `SerializeQuantizedVector`. -/
def quantizedRoundTrip (tier : EVectorQuantization) (x : ℚ) : ℚ :=
  let p := serializeQuantizedVectorParams tier
  readPackedComponent p.1 (writePackedComponent p.1 p.2 x)

/-- Declared maximum component magnitude of a tier: `2^MaxBitsPerComponent`
divided by the scale factor (the repository comment's "2^30 / 100, or ~10
million" for the two-decimal tier). -/
def tierMaxMagnitude (tier : EVectorQuantization) : ℚ :=
  let p := serializeQuantizedVectorParams tier
  (2 ^ p.2 : ℚ) / p.1

/-- Stated precision bound of a tier: 1 unit for whole numbers, 0.1 for one
decimal, 0.01 for two decimals (the reciprocal of the scale factor). -/
def tierPrecision : EVectorQuantization → ℚ
  | EVectorQuantization.RoundTwoDecimals => 1 / 100
  | EVectorQuantization.RoundOneDecimal => 1 / 10
  | EVectorQuantization.RoundWholeNumber => 1

/-! Section: Velocity braking (claim C10)

`UExtCharacterMovementComponent::ApplyVelocityBraking`
(ExtCharacterMovementComponent.cpp lines 325-379). -/

/-- Component state read by `ApplyVelocityBraking` besides its parameters.
`isRagdoll`/`isLanding` select the braking friction factor through
`GetBrakingFrictionFactor` (lines 1491-1500). -/
structure BrakingState where
  velocity : Vec3
  hasValidData : Bool
  hasAnimRootMotion : Bool
  isRagdoll : Bool
  isLanding : Bool
  brakingFrictionFactor : ℚ
  brakingFrictionFactorRagdoll : ℚ
  brakingFrictionFactorLanding : ℚ
  brakingSpeedTolerance : ℚ
deriving DecidableEq, Repr

/-- Embeds `GetBrakingFrictionFactor` (lines 1491-1500): ragdoll beats landing beats
the default factor. -/
def getBrakingFrictionFactor (s : BrakingState) : ℚ :=
  if s.isRagdoll then s.brakingFrictionFactorRagdoll
  else if s.isLanding then s.brakingFrictionFactorLanding
  else s.brakingFrictionFactor

/-- Sub-step duration of the subdivided braking loops (lines 352 and 359, and
identically lines 2311 and 2318): with non-zero friction the step is capped at
`MaxTimeStep = 1/33` or half the remaining time; zero friction is constant
deceleration and uses the whole remaining time. -/
def brakingStepDt (bZeroFriction : Bool) (remainingTime : ℚ) : ℚ :=
  if remainingTime > (1 / 33 : ℚ) ∧ ¬bZeroFriction then
    min (1 / 33) (remainingTime * (1 / 2))
  else remainingTime

/-- Subdivided braking loop of `ApplyVelocityBraking` (lines 356-371), with an
explicit iteration bound `fuel` (the loop terminates because `remainingTime`
shrinks below `MIN_TICK_TIME`; every property proved below holds for every
fuel value).  Returns the velocity together with `true` when the loop exited
through the direction-reversal early return (which zeroes the velocity). -/
def brakingLoop (friction : ℚ) (revAccel oldVel : Vec3) (bZeroFriction : Bool) :
    ℕ → ℚ → Vec3 → Vec3 × Bool
  | 0, _, v => (v, false)
  | fuel + 1, remainingTime, v =>
    if remainingTime ≥ MIN_TICK_TIME then
      let dt := brakingStepDt bZeroFriction remainingTime
      let v' := v.sub (Vec3.scale dt ((Vec3.scale friction v).add revAccel))
      if v'.dot oldVel ≤ 0 then (Vec3.zero, true)
      else brakingLoop friction revAccel oldVel bZeroFriction fuel (remainingTime - dt) v'
    else (v, false)

/-- Embeds `ApplyVelocityBraking` (lines 325-379).  `velocitySafeNormal` stands for
`Velocity.GetSafeNormal()` of the incoming velocity (float square-root
normalisation, passed as a parameter); the reverse braking acceleration is
`BrakingDeceleration * Velocity.GetSafeNormal()` when braking is non-zero.
Returns the new velocity. -/
def ApplyVelocityBraking (s : BrakingState) (deltaTime friction0 brakingDeceleration0 : ℚ)
    (velocitySafeNormal : Vec3) (fuel : ℕ) : Vec3 :=
  if s.velocity.isZero ∨ ¬s.hasValidData ∨ s.hasAnimRootMotion ∨ deltaTime < MIN_TICK_TIME then
    s.velocity
  else
    let frictionFactor := max 0 (getBrakingFrictionFactor s)
    let friction := max 0 (friction0 * frictionFactor)
    let brakingDeceleration := max 0 brakingDeceleration0
    let bZeroFriction := friction = 0
    let bZeroBraking := brakingDeceleration = 0
    if bZeroFriction ∧ bZeroBraking then s.velocity
    else
      let oldVel := s.velocity
      let revAccel := if bZeroBraking then Vec3.zero
        else Vec3.scale brakingDeceleration velocitySafeNormal
      match brakingLoop friction revAccel oldVel bZeroFriction fuel deltaTime s.velocity with
      | (v, true) => v
      | (v, false) =>
        if v.sizeSquared ≤ s.brakingSpeedTolerance ^ 2
            ∨ (¬bZeroBraking ∧ v.sizeSquared ≤ BRAKE_TO_STOP_VELOCITY ^ 2) then
          Vec3.zero
        else v

/-! Section: Stop-location prediction (claim C9)

`UExtCharacterMovementComponent::PredictStopLocation`
(ExtCharacterMovementComponent.cpp lines 2247-2351). -/

/-- Component state read by `PredictStopLocation`.  `fluidFriction` is
`GetPhysicsVolume()->FluidFriction`; the remaining fields mirror the component
members consulted by the function and by `GetMaxBrakingDeceleration`
(lines 1464-1489) and `GetBrakingFrictionFactor` (lines 1491-1500). -/
structure StopPredictionState where
  hasValidData : Bool
  isReplicated : Bool
  localRoleBelowAuthority : Bool
  movementMode : EMovementMode
  groundFriction : ℚ
  fluidFriction : ℚ
  isRagdoll : Bool
  isLanding : Bool
  brakingFrictionFactor : ℚ
  brakingFrictionFactorRagdoll : ℚ
  brakingFrictionFactorLanding : ℚ
  brakingDecelerationWalking : ℚ
  brakingDecelerationFalling : ℚ
  brakingDecelerationSwimming : ℚ
  brakingDecelerationFlying : ℚ
  brakingDecelerationRagdoll : ℚ
  brakingDecelerationLanding : ℚ
  bUseSeparateBrakingFriction : Bool
  brakingFriction : ℚ
  brakingSpeedTolerance : ℚ
  acceleration : Vec3
  velocity : Vec3
  location : Vec3
deriving DecidableEq, Repr

/-- Embeds `GetMaxBrakingDeceleration` (lines 1464-1489): ragdoll beats landing beats
the per-mode braking deceleration; modes without one yield 0. -/
def getMaxBrakingDeceleration (s : StopPredictionState) : ℚ :=
  if s.isRagdoll then s.brakingDecelerationRagdoll
  else if s.isLanding then s.brakingDecelerationLanding
  else
    match s.movementMode with
    | MOVE_Walking => s.brakingDecelerationWalking
    | MOVE_NavWalking => s.brakingDecelerationWalking
    | MOVE_Falling => s.brakingDecelerationFalling
    | MOVE_Swimming => s.brakingDecelerationSwimming
    | MOVE_Flying => s.brakingDecelerationFlying
    | _ => 0

/-- Embeds `GetBrakingFrictionFactor` (lines 1491-1500) read from the stop-prediction
state. -/
def getBrakingFrictionFactorSP (s : StopPredictionState) : ℚ :=
  if s.isRagdoll then s.brakingFrictionFactorRagdoll
  else if s.isLanding then s.brakingFrictionFactorLanding
  else s.brakingFrictionFactor

/-- Friction and fluid flag selected by the movement-mode switch of
`PredictStopLocation` (lines 2263-2277); `none` is the `default` case that
makes the prediction fail (falling, swimming, and every other mode without a
well-defined braking model). -/
def predictStopFrictionByMode (s : StopPredictionState) : Option (ℚ × Bool) :=
  match s.movementMode with
  | MOVE_Walking => some (s.groundFriction, false)
  | MOVE_NavWalking => some (s.groundFriction, false)
  | MOVE_Flying => some (1 / 2 * s.fluidFriction, true)
  | _ => none

/-- Braking subdivision loop of `PredictStopLocation` (lines 2310-2327), run
when there is no acceleration, with an explicit iteration bound `fuel`.
Returns the velocity together with `true` when the loop exited through the
direction-reversal check (which makes the whole prediction return at the
current stop location). -/
def predictBrakingSubLoop (actualBrakingFriction : ℚ) (revAccel oldVelocity : Vec3)
    (bZeroBrakingFriction : Bool) : ℕ → ℚ → Vec3 → Vec3 × Bool
  | 0, _, v => (v, false)
  | fuel + 1, remainingTime, v =>
    if remainingTime ≥ MIN_TICK_TIME then
      let dt := brakingStepDt bZeroBrakingFriction remainingTime
      let v' := v.sub (Vec3.scale dt ((Vec3.scale actualBrakingFriction v).add revAccel))
      if v'.dot oldVelocity ≤ 0 then (v', true)
      else predictBrakingSubLoop actualBrakingFriction revAccel oldVelocity
        bZeroBrakingFriction fuel (remainingTime - dt) v'
    else (v, false)

/-- Outer prediction loop of `PredictStopLocation` (lines 2300-2348),
structurally recursive on the remaining iteration count.  `norm3` stands for
`FVector::GetSafeNormal` and `sizeOf3` for `FVector::Size` (both involve a
float square root and are passed as parameters).  Returns `some` of the
predicted stop location when an early-stop condition fires, `none` when the
iteration budget runs out (the function's final `return false`). -/
def predictStopLoop (norm3 : Vec3 → Vec3) (sizeOf3 : Vec3 → ℚ)
    (timeStep friction actualBrakingFriction brakingDeceleration brakingSpeedTolerance : ℚ)
    (bZeroAcceleration bZeroBraking bZeroBrakingFriction bFluid : Bool) (accelDir : Vec3)
    (fuel : ℕ) : ℕ → Vec3 → Vec3 → Option Vec3
  | 0, _, _ => none
  | iterations + 1, outStopLocation, lastVelocity =>
    let stepResult : Vec3 × Bool :=
      if bZeroAcceleration then
        let revAccel := if bZeroBraking then Vec3.zero
          else Vec3.scale brakingDeceleration (norm3 lastVelocity)
        predictBrakingSubLoop actualBrakingFriction revAccel lastVelocity
          bZeroBrakingFriction fuel timeStep lastVelocity
      else
        let velSize := sizeOf3 lastVelocity
        (lastVelocity.sub (Vec3.scale (min (timeStep * friction) 1)
          (lastVelocity.sub (Vec3.scale velSize accelDir))), false)
    if stepResult.2 then some outStopLocation
    else
      let lastVelocity' := if bFluid then
          Vec3.scale (1 - min (friction * timeStep) 1) stepResult.1
        else stepResult.1
      if lastVelocity'.sizeSquared ≤ brakingSpeedTolerance ^ 2
          ∨ (¬bZeroBraking ∧ lastVelocity'.sizeSquared < BRAKE_TO_STOP_VELOCITY ^ 2) then
        some outStopLocation
      else
        predictStopLoop norm3 sizeOf3 timeStep friction actualBrakingFriction
          brakingDeceleration brakingSpeedTolerance bZeroAcceleration bZeroBraking
          bZeroBrakingFriction bFluid accelDir fuel iterations
          (outStopLocation.add (Vec3.scale timeStep lastVelocity')) lastVelocity'

/-- Embeds `PredictStopLocation` (lines 2247-2351).  Fails (`none`, the C++ `return
false` paths that leave the out-parameter untouched) on invalid data, on a
replicated component below authority, on a time step below `MIN_TICK_TIME`,
on a time limit below the time step, on a movement mode without a braking
model, and on the everything-zero early out; otherwise integrates the braking
model forward. -/
def PredictStopLocation (norm3 : Vec3 → Vec3) (sizeOf3 : Vec3 → ℚ)
    (s : StopPredictionState) (timeLimit timeStep : ℚ) (fuel : ℕ) : Option Vec3 :=
  if ¬s.hasValidData then none
  else if s.isReplicated ∧ s.localRoleBelowAuthority then none
  else if timeStep < MIN_TICK_TIME ∨ timeLimit < timeStep then none
  else
    match predictStopFrictionByMode s with
    | none => none
    | some (friction0, bFluid) =>
      let frictionFactor := max 0 (getBrakingFrictionFactorSP s)
      let friction := max 0 (friction0 * frictionFactor)
      let bZeroAcceleration := s.acceleration.isZero
      let brakingDeceleration := max (getMaxBrakingDeceleration s) 0
      let bZeroBraking := brakingDeceleration = 0
      let actualBrakingFriction :=
        max (if s.bUseSeparateBrakingFriction then s.brakingFriction else friction) 0
      let bZeroBrakingFriction := actualBrakingFriction = 0
      let bZeroFluidFriction := ¬bFluid ∨ friction = 0
      if bZeroAcceleration ∧ bZeroBraking ∧ bZeroBrakingFriction ∧ bZeroFluidFriction then
        none
      else
        let accelDir := if bZeroAcceleration then Vec3.zero else norm3 s.acceleration
        let lastVelocity := if bZeroAcceleration then s.velocity
          else s.velocity.projectOnToNormal accelDir
        let maxPredictionIterations := (⌊timeLimit / timeStep⌋).toNat
        predictStopLoop norm3 sizeOf3 timeStep friction actualBrakingFriction
          brakingDeceleration s.brakingSpeedTolerance bZeroAcceleration bZeroBraking
          bZeroBrakingFriction bFluid accelDir fuel maxPredictionIterations
          s.location lastVelocity

/-! Section: Turn in place (claim C7)

`UExtCharacterMovementComponent::PhysicsRotation`, the stationary
orient-to-controller branch (ExtCharacterMovementComponent.cpp lines
1801-1918), `ResetTurnInPlaceState` (lines 1714-1723) and
`CanTurnInPlaceInCurrentState` (lines 1702-1712).  The embedding tracks yaw
only: `ShouldRemainVertical()` is constantly true (lines 1510-1516), so pitch
and roll of every target rotation are zeroed and the upright character's
current pitch and roll are 0.  The controller-desired-rotation flag reset at
line 1803 concerns a separate sub-machine and is outside this slice. -/

/-- A float that can hold the turn-in-place sentinels: a finite value,
`+infinity` ("not turning") or `-infinity` ("suspended"). -/
inductive FloatInf where
  | finite (val : ℚ)
  | posInf
  | negInf
deriving DecidableEq, Repr

/-- Embeds `FMath::IsFinite` on a sentinel-capable float. -/
def FloatInf.isFinite : FloatInf → Bool
  | FloatInf.finite _ => true
  | FloatInf.posInf => false
  | FloatInf.negInf => false

/-- Comparison `y < 0.f` on a sentinel-capable float. -/
def FloatInf.ltZero : FloatInf → Bool
  | FloatInf.finite v => v < 0
  | FloatInf.posInf => false
  | FloatInf.negInf => true

/-- The finite value when there is one, a default otherwise: the recurring
idiom `FMath::IsFinite(Yaw) ? Yaw : Default`. -/
def FloatInf.valOr (y : FloatInf) (d : ℚ) : ℚ :=
  match y with
  | FloatInf.finite v => v
  | FloatInf.posInf => d
  | FloatInf.negInf => d

/-- Embeds `CalculateConstantDeltaRotationAxis` (lines 1528-1555): shortest signed
angular distance toward the target, clamped by `DeltaTime * InterpSpeed` so
there is no overshoot; degenerate interpolation parameters yield 0 or jump to
the target. -/
def calculateConstantDeltaRotationAxis (current target deltaTime interpSpeed : ℚ) : ℚ :=
  if interpSpeed = 0 ∨ deltaTime = 0 ∨ current = target then 0
  else
    let delta := findDeltaAngleDegrees current target
    if interpSpeed < 0 then delta
    else if |delta| ≤ 1 / 1000 then delta
    else
      let deltaInterpSpeed := deltaTime * interpSpeed
      clampQ delta (-deltaInterpSpeed) deltaInterpSpeed

/-- Configuration and per-tick context read by the stationary turn-in-place
branch and by `CanTurnInPlaceInCurrentState`. -/
structure TurnInPlaceConfig where
  bEnableTurnInPlace : Bool
  hasExtOwner : Bool
  isGettingUp : Bool
  hasRootMotionSources : Bool
  bUseTurnInPlaceDelay : Bool
  turnInPlaceDelay : ℚ
  lookAngleThreshold : ℚ
  turnInPlaceMaxDistance : ℚ
  turnInPlaceSlowThreshold : ℚ
  turnInPlaceRotationRateYaw : ℚ
deriving DecidableEq, Repr

/-- Embeds `CanTurnInPlaceInCurrentState` (lines 1702-1712). -/
def CanTurnInPlaceInCurrentState (cfg : TurnInPlaceConfig) : Bool :=
  cfg.bEnableTurnInPlace && cfg.hasExtOwner && !cfg.isGettingUp && !cfg.hasRootMotionSources

/-- Turn-in-place control state of the movement component. -/
structure TurnInPlaceState where
  turnInPlaceTargetYaw : FloatInf
  turnInPlaceTimeCounter : ℚ
  bCanEnforceTurnInPlaceRotationMaxDistance : Bool
deriving DecidableEq, Repr

/-- Embeds `ResetTurnInPlaceState` (lines 1714-1723): unconditionally suspend, with
the target yaw sentinel set to `-infinity`. -/
def ResetTurnInPlaceState (_ : TurnInPlaceState) : TurnInPlaceState :=
  { turnInPlaceTargetYaw := FloatInf.negInf
    turnInPlaceTimeCounter := 0
    bCanEnforceTurnInPlaceRotationMaxDistance := false }

/-- Restore-from-suspension step (lines 1807-1811): a non-finite negative
target yaw (the `-infinity` sentinel) becomes `+infinity`. -/
def restoreFromSuspension (yaw : FloatInf) : FloatInf :=
  if ¬yaw.isFinite ∧ yaw.ltZero then FloatInf.posInf else yaw

/-- How the stationary branch leaves `PhysicsRotation`: through the
cannot-turn reset (lines 1884-1886), through the reached-target reset
(lines 1900-1904), or with a computed yaw delta (lines 1916-1918). -/
inductive TurnStepOutcome where
  | suspendedReset
  | reachedTarget
  | step (deltaYaw : ℚ)
deriving DecidableEq, Repr

/-- Result of the stationary turn-in-place branch: the updated control state,
the (possibly max-distance-clamped) current yaw, and the exit taken. -/
structure StationaryTurnResult where
  state : TurnInPlaceState
  currentYaw : ℚ
  outcome : TurnStepOutcome
deriving DecidableEq, Repr

/-- Turn-step computation shared by the 90-degree stepping logic at lines
1826-1828 and 1874-1876: how far past the threshold the look delta reaches, in
whole 90-degree steps (C++ integer division truncates toward zero, hence
`Int.tdiv`), signed toward the look direction. -/
def turnInPlaceStepAngle (lookYawDelta lookYawAngle maxLookYawAngle : ℚ) : ℚ :=
  let turnInPlaceSteps := (Int.tdiv ⌊lookYawAngle - maxLookYawAngle⌋ 90) + 1
  (turnInPlaceSteps : ℚ) * (if lookYawDelta ≥ 0 then 90 else -90)

/-- Common tail of the stationary branch (lines 1888-1918): build the target
rotation from the (possibly updated) target yaw, reset the sentinel to
`+infinity` when the rotation already equals its target, and otherwise compute
the clamped yaw delta at a rate slowed near the target. -/
def turnStepCommonTail (cfg : TurnInPlaceConfig) (yaw1 : FloatInf) (counter1 : ℚ)
    (canEnforce1 : Bool) (currentYaw1 deltaSeconds : ℚ) : StationaryTurnResult :=
  let targetRotationYaw := yaw1.valOr currentYaw1
  if |findDeltaAngleDegrees currentYaw1 targetRotationYaw| ≤ AngleTolerance then
    { state := { turnInPlaceTargetYaw := FloatInf.posInf
                 turnInPlaceTimeCounter := counter1
                 bCanEnforceTurnInPlaceRotationMaxDistance := canEnforce1 }
      currentYaw := currentYaw1
      outcome := TurnStepOutcome.reachedTarget }
  else
    let rate :=
      if cfg.turnInPlaceSlowThreshold > 0 then
        let minRateFactor : ℚ := 1 / 10
        let currentTargetYaw := yaw1.valOr currentYaw1
        let yawDelta := |findDeltaAngleDegrees currentYaw1 currentTargetYaw|
        cfg.turnInPlaceRotationRateYaw
          * lerpQ minRateFactor 1 (clampQ (yawDelta / cfg.turnInPlaceSlowThreshold) 0 1)
      else cfg.turnInPlaceRotationRateYaw
    { state := { turnInPlaceTargetYaw := yaw1
                 turnInPlaceTimeCounter := counter1
                 bCanEnforceTurnInPlaceRotationMaxDistance := canEnforce1 }
      currentYaw := currentYaw1
      outcome := TurnStepOutcome.step
        (calculateConstantDeltaRotationAxis currentYaw1 targetRotationYaw deltaSeconds rate) }

/-- Core of the stationary turn-in-place branch after the restore step
(lines 1813-1918), taking the already-restored target yaw `yaw0`.  The delayed
path (lines 1813-1839) accumulates a timer before committing a 90-degree step;
the immediate path (lines 1840-1880) resets the timer, optionally clamps the
current yaw to the max angular distance, and commits a step as soon as the
look delta exceeds the threshold. -/
def stationaryTurnInPlaceCore (cfg : TurnInPlaceConfig) (yaw0 : FloatInf)
    (timeCounter0 : ℚ) (canEnforce0 : Bool) (currentYaw controlYaw deltaSeconds : ℚ) :
    StationaryTurnResult :=
  if cfg.bUseTurnInPlaceDelay ∧ cfg.turnInPlaceDelay > 1 / 100 then
    let next : FloatInf × ℚ :=
      if ¬yaw0.isFinite then
        let maxLookYawAngle := clampQ cfg.lookAngleThreshold 45 90
        let lookYawDelta := findDeltaAngleDegrees currentYaw controlYaw
        let lookYawAngle := |lookYawDelta|
        if lookYawAngle > maxLookYawAngle then
          let counter := timeCounter0 + deltaSeconds
          if counter > cfg.turnInPlaceDelay then
            (FloatInf.finite
              (currentYaw + turnInPlaceStepAngle lookYawDelta lookYawAngle maxLookYawAngle), 0)
          else (yaw0, counter)
        else (yaw0, 0)
      else (yaw0, timeCounter0)
    turnStepCommonTail cfg next.1 next.2 canEnforce0 currentYaw deltaSeconds
  else
    let enforced : ℚ × Bool :=
      if cfg.turnInPlaceMaxDistance > 0 then
        let lookYawDelta := findDeltaAngleDegrees currentYaw controlYaw
        if lookYawDelta < -cfg.turnInPlaceMaxDistance then
          (if canEnforce0 then normalizeAxis (controlYaw + cfg.turnInPlaceMaxDistance)
           else currentYaw, canEnforce0)
        else if lookYawDelta > cfg.turnInPlaceMaxDistance then
          (if canEnforce0 then normalizeAxis (controlYaw - cfg.turnInPlaceMaxDistance)
           else currentYaw, canEnforce0)
        else (currentYaw, true)
      else (currentYaw, canEnforce0)
    let currentTargetYaw := yaw0.valOr enforced.1
    let lookYawDelta := findDeltaAngleDegrees currentTargetYaw controlYaw
    let maxLookYawAngle := clampQ cfg.lookAngleThreshold 45 90
    let lookYawAngle := |lookYawDelta|
    let yaw1 :=
      if lookYawAngle > maxLookYawAngle then
        FloatInf.finite (unwindDegrees
          (currentTargetYaw + turnInPlaceStepAngle lookYawDelta lookYawAngle maxLookYawAngle))
      else yaw0
    turnStepCommonTail cfg yaw1 0 enforced.2 enforced.1 deltaSeconds

/-- Stationary turn-in-place update (lines 1801-1918): when turn-in-place is
allowed, restore the target yaw from suspension and run the core; otherwise
reset the turn-in-place state (suspending it) and return. -/
def stationaryTurnInPlaceUpdate (cfg : TurnInPlaceConfig) (s : TurnInPlaceState)
    (currentYaw controlYaw deltaSeconds : ℚ) : StationaryTurnResult :=
  if CanTurnInPlaceInCurrentState cfg then
    stationaryTurnInPlaceCore cfg (restoreFromSuspension s.turnInPlaceTargetYaw)
      s.turnInPlaceTimeCounter s.bCanEnforceTurnInPlaceRotationMaxDistance
      currentYaw controlYaw deltaSeconds
  else
    { state := ResetTurnInPlaceState s
      currentYaw := currentYaw
      outcome := TurnStepOutcome.suspendedReset }

/-! Section: Theorems -/

/-- C5: the pivot-turn direction classification is a pure, deterministic
function of the movement-drift angle (it is a total Lean function of the drift
alone, so identical inputs always give identical results): drift 40 yields
North, 140 South, 90 East, -40 North, -140 South, -90 West; at the exact
boundary angles 50 and 130 it yields East and at -50 and -130 it yields West,
the same definite result on every evaluation. -/
theorem claim_C5_pivot_turn_direction_classification :
    pivotTurnDirectionFromDrift 40 = ECardinalDirection.North
    ∧ pivotTurnDirectionFromDrift 140 = ECardinalDirection.South
    ∧ pivotTurnDirectionFromDrift 90 = ECardinalDirection.East
    ∧ pivotTurnDirectionFromDrift (-40) = ECardinalDirection.North
    ∧ pivotTurnDirectionFromDrift (-140) = ECardinalDirection.South
    ∧ pivotTurnDirectionFromDrift (-90) = ECardinalDirection.West
    ∧ pivotTurnDirectionFromDrift 50 = ECardinalDirection.East
    ∧ pivotTurnDirectionFromDrift 130 = ECardinalDirection.East
    ∧ pivotTurnDirectionFromDrift (-50) = ECardinalDirection.West
    ∧ pivotTurnDirectionFromDrift (-130) = ECardinalDirection.West := by
  decide

/-- C4: for every animation speed scale below 1 (deviation in [-1, 0)), the
play-rate deviation is at least -0.15, the speed-warp deviation is at least
-0.85, and the two deviations sum to the full deviation exactly; the standing
and crouched code paths compute this split by the same two formulas
(`playRateDeviation`, `speedWarpDeviation`). -/
theorem claim_C4_deviation_budget_split (d : ℚ) (h1 : -1 ≤ d) (h2 : d < 0) :
    -(3 / 20) ≤ playRateDeviation d
    ∧ -(17 / 20) ≤ speedWarpDeviation d
    ∧ playRateDeviation d + speedWarpDeviation d = d := by
  refine ⟨le_max_left _ _, le_max_left _ _, ?_⟩
  unfold speedWarpDeviation playRateDeviation
  rcases le_or_lt (-(3 / 20)) d with h | h
  · rw [max_eq_right h, sub_self, max_eq_right (by norm_num), add_zero]
  · rw [max_eq_left h.le, max_eq_right (by linarith)]
    ring

/-- Witness for C4 at the extreme deviation -1 (a standstill). -/
theorem claim_C4_witness :
    playRateDeviation (-1) + speedWarpDeviation (-1) = -1 :=
  (claim_C4_deviation_budget_split (-1) (by decide) (by decide)).2.2

/-- C2: `CanSprintInCurrentState` returns false whenever the character is
crouched, a ragdoll, getting up, or not moving on ground, regardless of all
other flags; and it returns true only when additionally the 2D speed is above
`KINDA_SMALL_NUMBER` and, when `MaxSprintAngle` is configured positive, the
normalized 2D acceleration direction is within `MaxSprintAngle` degrees of the
forward vector (its dot product with forward at least the angle's cosine). -/
theorem claim_C2_canSprint_gating (cosDeg : ℚ → ℚ) (s : SprintQueryState) :
    ((s.bIsCrouched = true ∨ s.isRagdoll = true ∨ s.isGettingUp = true
        ∨ isMovingOnGround s.movementMode = false) →
      CanSprintInCurrentState cosDeg s = false)
    ∧ (CanSprintInCurrentState cosDeg s = true →
        KINDA_SMALL_NUMBER < s.velocitySizeSq2D
        ∧ (0 < s.maxSprintAngle → cosDeg s.maxSprintAngle ≤ s.accelNormal2DDotForward)) := by
  unfold CanSprintInCurrentState
  constructor
  · rintro (h | h | h | h) <;> simp [h]
  · intro h
    simp only [Bool.and_eq_true, Bool.or_eq_true, decide_eq_true_eq] at h
    refine ⟨h.1.2, fun hpos => ?_⟩
    rcases h.2 with h2 | h2
    · exact absurd hpos (not_lt.mpr h2)
    · exact h2

/-- Witness for C2: a crouched state cannot sprint. -/
theorem claim_C2_witness :
    CanSprintInCurrentState (fun _ => 0)
      { canEverSprint := true, movementMode := MOVE_Walking, hasExtOwner := true
        isRagdoll := false, isGettingUp := false, bIsCrouched := true
        velocitySizeSq2D := 1, maxSprintAngle := 50, accelNormal2DDotForward := 1 } = false :=
  (claim_C2_canSprint_gating (fun _ => 0) _).1 (Or.inl rfl)

/-- C6: resolving the sprint toggle twice in succession with unchanged context
fires exactly one `OnStartSprint` notification when the context allows and
wants a sprint that is not yet active, and none otherwise; in particular the
second invocation, with the sprint state already matching, is a no-op and
never fires a second start notification. -/
theorem claim_C6_sprint_toggle_idempotent (ctx : SprintToggleContext) (b : Bool) :
    startSprintCount (sprintToggleStep ctx b).2
      + startSprintCount (sprintToggleStep ctx (sprintToggleStep ctx b).1).2
      = (if ctx.hasValidData ∧ ctx.allowedToSprint ∧ ctx.wantsToSprint ∧ b = false
         then 1 else 0) := by
  rcases ctx with ⟨hv, al, wa⟩
  cases hv <;> cases al <;> cases wa <;> cases b <;> decide

/-- C1: the pivot-turn flag update of the per-tick ground-movement state.
The flag is entered (false to true) only when moving on ground with the
deflection dot product below -0.173648 (approximately cos 100 deg) and the
last accelerated speed above the minimum pivot speed; once set it is cleared
when the deflection rises above 0.7071068 (cos 45 deg), when both current
velocity and acceleration vanish, and on any movement-mode change leaving
Walking/NavWalking; consequently, after a tick that starts from a state whose
flag only holds on ground, the flag is true only while moving on ground with
the deflection still at or below the cos 45 deg exit threshold. -/
theorem claim_C1_pivot_turn_flag_invariant (inp : PivotTurnTickInput)
    (newMode prevMode : EMovementMode) (b : Bool) :
    (updatePivotTurnFlag inp false = true →
      (inp.movementMode = MOVE_Walking ∨ inp.movementMode = MOVE_NavWalking)
      ∧ inp.movementDeflection < -(173648 / 1000000)
      ∧ inp.pivotTurnMinSpeed ^ 2 < inp.lastAcceleratedVelocitySizeSq2D)
    ∧ ((inp.movementMode = MOVE_Walking ∨ inp.movementMode = MOVE_NavWalking) →
        7071068 / 10000000 < inp.movementDeflection →
        updatePivotTurnFlag inp true = false)
    ∧ ((inp.movementMode = MOVE_Walking ∨ inp.movementMode = MOVE_NavWalking) →
        inp.accelerationSizeSq2D ≤ KINDA_SMALL_NUMBER →
        inp.velocitySizeSq2D ≤ KINDA_SMALL_NUMBER →
        updatePivotTurnFlag inp true = false)
    ∧ (¬(newMode = MOVE_Walking ∨ newMode = MOVE_NavWalking) →
        onMovementModeChangedPivotTurnFlag newMode prevMode b = false)
    ∧ ((b = true → inp.movementMode = MOVE_Walking ∨ inp.movementMode = MOVE_NavWalking) →
        updatePivotTurnFlag inp b = true →
        (inp.movementMode = MOVE_Walking ∨ inp.movementMode = MOVE_NavWalking)
        ∧ inp.movementDeflection ≤ 7071068 / 10000000) := by
  refine ⟨?_, ?_, ?_, ?_, ?_⟩
  · intro h
    unfold updatePivotTurnFlag at h
    by_cases hmode : inp.movementMode = MOVE_Walking ∨ inp.movementMode = MOVE_NavWalking
    · rw [if_pos hmode, if_neg (by simp)] at h
      split at h
      · rename_i henter
        exact ⟨hmode, henter.2.1, henter.2.2.1⟩
      · exact absurd h (by simp)
    · rw [if_neg hmode] at h
      exact absurd h (by simp)
  · intro hmode hdef
    unfold updatePivotTurnFlag
    rw [if_pos hmode, if_pos rfl, if_pos (Or.inl hdef)]
  · intro hmode hacc hvel
    unfold updatePivotTurnFlag
    rw [if_pos hmode, if_pos rfl,
      if_pos (Or.inr ⟨not_lt.mpr hacc, not_lt.mpr hvel⟩)]
  · intro hmode
    unfold onMovementModeChangedPivotTurnFlag
    rw [if_pos ?_]
    constructor
    · rintro ⟨h1, -⟩
      exact hmode (Or.inl h1)
    · rintro ⟨h1, -⟩
      exact hmode (Or.inr h1)
  · intro hground h
    unfold updatePivotTurnFlag at h
    by_cases hmode : inp.movementMode = MOVE_Walking ∨ inp.movementMode = MOVE_NavWalking
    · refine ⟨hmode, ?_⟩
      rw [if_pos hmode] at h
      cases b with
      | true =>
        rw [if_pos rfl] at h
        split at h
        · exact absurd h (by simp)
        · rename_i hexit
          push_neg at hexit
          exact hexit.1
      | false =>
        rw [if_neg (by simp)] at h
        split at h
        · rename_i henter
          linarith [henter.2.1]
        · exact absurd h (by simp)
    · rw [if_neg hmode] at h
      cases b with
      | true => exact absurd (hground rfl) hmode
      | false => exact absurd h (by simp)

/-- Witness for C1: a reversal while running on ground enters the pivot turn,
and the alignment and mode-change exits clear it. -/
theorem claim_C1_witness :
    (updatePivotTurnFlag
      { movementMode := MOVE_Walking, bEnablePivotTurn := true
        movementDeflection := -(1 / 2), lastAcceleratedVelocitySizeSq2D := 90000
        pivotTurnMinSpeed := 250, accelerationSizeSq2D := 1, velocitySizeSq2D := 1
        isLanding := false, isGettingUp := false, isRagdoll := false } true = true →
      (MOVE_Walking = MOVE_Walking ∨ MOVE_Walking = MOVE_NavWalking)
      ∧ (-(1 / 2) : ℚ) ≤ 7071068 / 10000000)
    ∧ onMovementModeChangedPivotTurnFlag MOVE_Falling MOVE_Walking true = false := by
  have h := claim_C1_pivot_turn_flag_invariant
    { movementMode := MOVE_Walking, bEnablePivotTurn := true
      movementDeflection := -(1 / 2), lastAcceleratedVelocitySizeSq2D := 90000
      pivotTurnMinSpeed := 250, accelerationSizeSq2D := 1, velocitySizeSq2D := 1
      isLanding := false, isGettingUp := false, isRagdoll := false }
    MOVE_Falling MOVE_Walking true
  exact ⟨h.2.2.2.2 (fun _ => Or.inl rfl), h.2.2.2.1 (by decide)⟩

/-- Value of the standing gait scale in the walk band. -/
theorem gaitScaleStanding_band1 (w r s v : ℚ) (hv : v ≤ w) :
    gaitScaleStanding w r s v = v / w := by
  unfold gaitScaleStanding getRangePct
  rw [if_pos hv, sub_zero, sub_zero]

/-- Value of the standing gait scale in the walk-run band. -/
theorem gaitScaleStanding_band2 (w r s v : ℚ) (hw : 0 < w) (hwr : w < r)
    (h1 : w ≤ v) (h2 : v ≤ r) :
    gaitScaleStanding w r s v = 1 + (v - w) / (r - w) := by
  unfold gaitScaleStanding getRangePct
  by_cases hvw : v ≤ w
  · have hv : v = w := le_antisymm hvw h1
    subst hv
    rw [if_pos le_rfl]
    simp only [sub_zero]
    rw [div_self hw.ne', sub_self, zero_div, add_zero]
  · rw [if_neg hvw, if_pos h2]

/-- Value of the standing gait scale in the run-sprint band. -/
theorem gaitScaleStanding_band3 (w r s v : ℚ) (hw : 0 < w) (hwr : w < r) (hrs : r < s)
    (h1 : r ≤ v) (h2 : v ≤ s) :
    gaitScaleStanding w r s v = 2 + (v - r) / (s - r) := by
  unfold gaitScaleStanding getRangePct
  have hvw : ¬v ≤ w := not_le.mpr (lt_of_lt_of_le hwr h1)
  by_cases hvr : v ≤ r
  · have hv : v = r := le_antisymm hvr h1
    subst hv
    rw [if_neg hvw, if_pos le_rfl, div_self (by linarith), sub_self, zero_div, add_zero]
    norm_num
  · rw [if_neg hvw, if_neg hvr, if_pos h2]

/-- Value of the crouched gait scale in the walk band. -/
theorem gaitScaleCrouched_band1 (wc rc v : ℚ) (hv : v ≤ wc) :
    gaitScaleCrouched wc rc v = v / wc := by
  unfold gaitScaleCrouched getRangePct
  rw [if_pos hv, sub_zero, sub_zero]

/-- Value of the crouched gait scale in the walk-run band. -/
theorem gaitScaleCrouched_band2 (wc rc v : ℚ) (hwc : 0 < wc) (hwrc : wc < rc)
    (h1 : wc ≤ v) (h2 : v ≤ rc) :
    gaitScaleCrouched wc rc v = 1 + (v - wc) / (rc - wc) := by
  unfold gaitScaleCrouched getRangePct
  by_cases hvw : v ≤ wc
  · have hv : v = wc := le_antisymm hvw h1
    subst hv
    rw [if_pos le_rfl]
    simp only [sub_zero]
    rw [div_self hwc.ne', sub_self, zero_div, add_zero]
  · rw [if_neg hvw, if_pos h2]

/-- C3: for every non-negative ground speed, with the walk, run and sprint
band breakpoints ordered as configured (0 < walk < run < sprint standing,
0 < walk < run crouched), the gait-scale computation is monotonically
non-decreasing in ground speed within each speed band, the piecewise-linear
segments agree at the walk/run and run/sprint breakpoints (continuity), and
the value lies in [0, 3] when standing and in [0, 2] when crouched. -/
theorem claim_C3_gaitScale_monotone_continuous_bounded
    (w r s wc rc : ℚ) (hw : 0 < w) (hwr : w < r) (hrs : r < s)
    (hwc : 0 < wc) (hwrc : wc < rc) :
    (∀ v1 v2, 0 ≤ v1 → v1 ≤ v2 → v2 ≤ w →
      gaitScaleStanding w r s v1 ≤ gaitScaleStanding w r s v2)
    ∧ (∀ v1 v2, w ≤ v1 → v1 ≤ v2 → v2 ≤ r →
      gaitScaleStanding w r s v1 ≤ gaitScaleStanding w r s v2)
    ∧ (∀ v1 v2, r ≤ v1 → v1 ≤ v2 → v2 ≤ s →
      gaitScaleStanding w r s v1 ≤ gaitScaleStanding w r s v2)
    ∧ getRangePct 0 w w = 1 + getRangePct w r w
    ∧ 1 + getRangePct w r r = 2 + getRangePct r s r
    ∧ 2 + getRangePct r s s = 3
    ∧ (∀ v, 0 ≤ v → 0 ≤ gaitScaleStanding w r s v ∧ gaitScaleStanding w r s v ≤ 3)
    ∧ (∀ v1 v2, 0 ≤ v1 → v1 ≤ v2 → v2 ≤ wc →
      gaitScaleCrouched wc rc v1 ≤ gaitScaleCrouched wc rc v2)
    ∧ (∀ v1 v2, wc ≤ v1 → v1 ≤ v2 → v2 ≤ rc →
      gaitScaleCrouched wc rc v1 ≤ gaitScaleCrouched wc rc v2)
    ∧ getRangePct 0 wc wc = 1 + getRangePct wc rc wc
    ∧ 1 + getRangePct wc rc rc = 2
    ∧ (∀ v, 0 ≤ v → 0 ≤ gaitScaleCrouched wc rc v ∧ gaitScaleCrouched wc rc v ≤ 2) := by
  refine ⟨?_, ?_, ?_, ?_, ?_, ?_, ?_, ?_, ?_, ?_, ?_, ?_⟩
  · intro v1 v2 h0 h12 h2w
    rw [gaitScaleStanding_band1 w r s v1 (le_trans h12 h2w),
      gaitScaleStanding_band1 w r s v2 h2w]
    exact (div_le_div_right hw).mpr h12
  · intro v1 v2 h1w h12 h2r
    rw [gaitScaleStanding_band2 w r s v1 hw hwr h1w (le_trans h12 h2r),
      gaitScaleStanding_band2 w r s v2 hw hwr (le_trans h1w h12) h2r]
    have := (div_le_div_right (show (0:ℚ) < r - w by linarith)).mpr (sub_le_sub_right h12 w)
    linarith
  · intro v1 v2 h1r h12 h2s
    rw [gaitScaleStanding_band3 w r s v1 hw hwr hrs h1r (le_trans h12 h2s),
      gaitScaleStanding_band3 w r s v2 hw hwr hrs (le_trans h1r h12) h2s]
    have := (div_le_div_right (show (0:ℚ) < s - r by linarith)).mpr (sub_le_sub_right h12 r)
    linarith
  · unfold getRangePct
    simp only [sub_zero]
    rw [div_self hw.ne', sub_self, zero_div, add_zero]
  · unfold getRangePct
    rw [div_self (sub_ne_zero.mpr hwr.ne'), sub_self, zero_div, add_zero]
    norm_num
  · unfold getRangePct
    rw [div_self (sub_ne_zero.mpr hrs.ne')]
    norm_num
  · intro v hv
    by_cases h1 : v ≤ w
    · rw [gaitScaleStanding_band1 w r s v h1]
      constructor
      · exact div_nonneg hv hw.le
      · have : v / w ≤ 1 := (div_le_one hw).mpr h1
        linarith
    · by_cases h2 : v ≤ r
      · rw [gaitScaleStanding_band2 w r s v hw hwr (le_of_not_le h1) h2]
        have ha : 0 ≤ (v - w) / (r - w) :=
          div_nonneg (by linarith [le_of_not_le h1]) (by linarith)
        have hb : (v - w) / (r - w) ≤ 1 := (div_le_one (by linarith)).mpr (by linarith)
        constructor <;> linarith
      · by_cases h3 : v ≤ s
        · rw [gaitScaleStanding_band3 w r s v hw hwr hrs (le_of_not_le h2) h3]
          have ha : 0 ≤ (v - r) / (s - r) :=
            div_nonneg (by linarith [le_of_not_le h2]) (by linarith)
          have hb : (v - r) / (s - r) ≤ 1 := (div_le_one (by linarith)).mpr (by linarith)
          constructor <;> linarith
        · unfold gaitScaleStanding
          rw [if_neg h1, if_neg h2, if_neg h3]
          norm_num
  · intro v1 v2 h0 h12 h2w
    rw [gaitScaleCrouched_band1 wc rc v1 (le_trans h12 h2w),
      gaitScaleCrouched_band1 wc rc v2 h2w]
    exact (div_le_div_right hwc).mpr h12
  · intro v1 v2 h1w h12 h2r
    rw [gaitScaleCrouched_band2 wc rc v1 hwc hwrc h1w (le_trans h12 h2r),
      gaitScaleCrouched_band2 wc rc v2 hwc hwrc (le_trans h1w h12) h2r]
    have := (div_le_div_right (show (0:ℚ) < rc - wc by linarith)).mpr (sub_le_sub_right h12 wc)
    linarith
  · unfold getRangePct
    simp only [sub_zero]
    rw [div_self hwc.ne', sub_self, zero_div, add_zero]
  · unfold getRangePct
    rw [div_self (sub_ne_zero.mpr hwrc.ne')]
    norm_num
  · intro v hv
    by_cases h1 : v ≤ wc
    · rw [gaitScaleCrouched_band1 wc rc v h1]
      constructor
      · exact div_nonneg hv hwc.le
      · have : v / wc ≤ 1 := (div_le_one hwc).mpr h1
        linarith
    · by_cases h2 : v ≤ rc
      · rw [gaitScaleCrouched_band2 wc rc v hwc hwrc (le_of_not_le h1) h2]
        have ha : 0 ≤ (v - wc) / (rc - wc) :=
          div_nonneg (by linarith [le_of_not_le h1]) (by linarith)
        have hb : (v - wc) / (rc - wc) ≤ 1 := (div_le_one (by linarith)).mpr (by linarith)
        constructor <;> linarith
      · unfold gaitScaleCrouched
        rw [if_neg h1, if_neg h2]
        norm_num

/-- The clamped packed-vector integer lies in the serialisable range. -/
theorem writePackedComponent_mem (sf : ℚ) (n : ℕ) (x : ℚ) :
    -(2 ^ n : ℤ) ≤ writePackedComponent sf n x
    ∧ writePackedComponent sf n x ≤ (2 ^ n : ℤ) - 1 := by
  unfold writePackedComponent
  have hp : (0 : ℤ) < 2 ^ n := pow_pos (by norm_num) n
  exact ⟨le_min (le_max_right _ _) (by linarith), min_le_right _ _⟩

/-- The decoded packed component never exceeds the range bound divided by the
scale factor. -/
theorem packedComponent_magnitude (sf : ℚ) (n : ℕ) (hsf : 0 < sf) (y : ℚ) :
    |readPackedComponent sf (writePackedComponent sf n y)| ≤ (2 ^ n : ℚ) / sf := by
  obtain ⟨hlo, hhi⟩ := writePackedComponent_mem sf n y
  unfold readPackedComponent
  rw [abs_div, abs_of_pos hsf]
  apply (div_le_div_right hsf).mpr
  have habs : |writePackedComponent sf n y| ≤ (2 ^ n : ℤ) := abs_le.mpr ⟨hlo, by linarith⟩
  calc |((writePackedComponent sf n y : ℤ) : ℚ)| = ((|writePackedComponent sf n y| : ℤ) : ℚ) := by
        rw [Int.cast_abs]
    _ ≤ ((2 ^ n : ℤ) : ℚ) := by exact_mod_cast habs
    _ = (2 ^ n : ℚ) := by push_cast; ring

/-- Round-trip error of one packed component: within the declared magnitude
bound the decoded value is within one scale unit of the source value. -/
theorem packedComponent_error (sf : ℚ) (n : ℕ) (hsf : 0 < sf) (x : ℚ)
    (hx : |x| ≤ (2 ^ n : ℚ) / sf) :
    |readPackedComponent sf (writePackedComponent sf n x) - x| ≤ 1 / sf := by
  unfold readPackedComponent writePackedComponent roundToInt
  set t : ℚ := x * sf with ht
  have hxt : x = t / sf := by
    rw [ht, mul_div_assoc, div_self hsf.ne', mul_one]
  have htB : |t| ≤ (2 ^ n : ℚ) := by
    have h1 : |x| * sf ≤ (2 ^ n : ℚ) / sf * sf := mul_le_mul_of_nonneg_right hx hsf.le
    rw [div_mul_cancel₀ _ hsf.ne'] at h1
    calc |t| = |x| * sf := by rw [ht, abs_mul, abs_of_pos hsf]
      _ ≤ (2 ^ n : ℚ) := h1
  set i : ℤ := ⌊t + 1 / 2⌋ with hi
  have hi1 : (i : ℚ) ≤ t + 1 / 2 := Int.floor_le _
  have hi2 : t + 1 / 2 - 1 < (i : ℚ) := Int.sub_one_lt_floor _
  have habs1 : -(2 ^ n : ℚ) ≤ t := (abs_le.mp htB).1
  have habs2 : t ≤ (2 ^ n : ℚ) := (abs_le.mp htB).2
  have hiUp : i ≤ (2 ^ n : ℤ) := by
    by_contra hcon
    push_neg at hcon
    have hstep : (2 ^ n : ℤ) + 1 ≤ i := Int.add_one_le_iff.mpr hcon
    have : ((2 ^ n : ℤ) : ℚ) + 1 ≤ (i : ℚ) := by exact_mod_cast hstep
    push_cast at this
    linarith
  have hiLo : -(2 ^ n : ℤ) ≤ i := by
    by_contra hcon
    push_neg at hcon
    have hstep : i + 1 ≤ -(2 ^ n : ℤ) := Int.add_one_le_iff.mpr hcon
    have : (i : ℚ) + 1 ≤ -((2 ^ n : ℤ) : ℚ) := by exact_mod_cast hstep
    push_cast at this
    linarith
  by_cases hcase : i ≤ (2 ^ n : ℤ) - 1
  · rw [max_eq_left hiLo, min_eq_left hcase, hxt, div_sub_div_same, abs_div, abs_of_pos hsf]
    apply (div_le_div_right hsf).mpr
    rw [abs_le]
    constructor <;> linarith
  · push_neg at hcase
    rw [max_eq_left hiLo, min_eq_right (by linarith : (2 ^ n : ℤ) - 1 ≤ i), hxt,
      div_sub_div_same, abs_div, abs_of_pos hsf]
    apply (div_le_div_right hsf).mpr
    have hiB : i = (2 ^ n : ℤ) := le_antisymm hiUp (by linarith)
    have hiq : (i : ℚ) = (2 ^ n : ℚ) := by rw [hiB]; push_cast; ring
    push_cast
    rw [abs_le]
    constructor <;> linarith

/-- C8: for every value within a quantization tier's declared maximum
magnitude, encoding then decoding a component at that tier (with the scale
factor and bit budget chosen by `SerializeQuantizedVector`) reproduces the
value within the tier's stated precision bound (1 unit whole-number, 0.1
one-decimal, 0.01 two-decimal), and the decoded value never exceeds the tier's
declared maximum magnitude, for any input at all. -/
theorem claim_C8_quantization_roundTrip (tier : EVectorQuantization) (x : ℚ)
    (hx : |x| ≤ tierMaxMagnitude tier) :
    |quantizedRoundTrip tier x - x| ≤ tierPrecision tier
    ∧ ∀ y : ℚ, |quantizedRoundTrip tier y| ≤ tierMaxMagnitude tier := by
  cases tier with
  | RoundWholeNumber =>
    constructor
    · have hx' : |x| ≤ (2 ^ 24 : ℚ) / 1 := by
        simpa [tierMaxMagnitude, serializeQuantizedVectorParams] using hx
      have h := packedComponent_error 1 24 (by norm_num) x hx'
      simpa [quantizedRoundTrip, serializeQuantizedVectorParams, tierPrecision] using h
    · intro y
      have h := packedComponent_magnitude 1 24 (by norm_num) y
      simpa [quantizedRoundTrip, serializeQuantizedVectorParams, tierMaxMagnitude] using h
  | RoundOneDecimal =>
    constructor
    · have hx' : |x| ≤ (2 ^ 27 : ℚ) / 10 := by
        simpa [tierMaxMagnitude, serializeQuantizedVectorParams] using hx
      have h := packedComponent_error 10 27 (by norm_num) x hx'
      simpa [quantizedRoundTrip, serializeQuantizedVectorParams, tierPrecision] using h
    · intro y
      have h := packedComponent_magnitude 10 27 (by norm_num) y
      simpa [quantizedRoundTrip, serializeQuantizedVectorParams, tierMaxMagnitude] using h
  | RoundTwoDecimals =>
    constructor
    · have hx' : |x| ≤ (2 ^ 30 : ℚ) / 100 := by
        simpa [tierMaxMagnitude, serializeQuantizedVectorParams] using hx
      have h := packedComponent_error 100 30 (by norm_num) x hx'
      simpa [quantizedRoundTrip, serializeQuantizedVectorParams, tierPrecision] using h
    · intro y
      have h := packedComponent_magnitude 100 30 (by norm_num) y
      simpa [quantizedRoundTrip, serializeQuantizedVectorParams, tierMaxMagnitude] using h

/-- Witness for C8 at the two-decimal tier and value 12345. -/
theorem claim_C8_witness :
    |quantizedRoundTrip EVectorQuantization.RoundTwoDecimals 12345 - 12345|
      ≤ tierPrecision EVectorQuantization.RoundTwoDecimals
    ∧ |quantizedRoundTrip EVectorQuantization.RoundTwoDecimals 98765|
      ≤ tierMaxMagnitude EVectorQuantization.RoundTwoDecimals := by
  have h := claim_C8_quantization_roundTrip EVectorQuantization.RoundTwoDecimals 12345
    (by norm_num [tierMaxMagnitude, serializeQuantizedVectorParams])
  exact ⟨h.1, h.2 98765⟩

/-- A dot product of a vector with itself is non-negative. -/
theorem Vec3.dot_self_nonneg (v : Vec3) : 0 ≤ v.dot v := by
  unfold Vec3.dot
  have hx := mul_self_nonneg v.x
  have hy := mul_self_nonneg v.y
  have hz := mul_self_nonneg v.z
  linarith

/-- A nonzero vector has a positive dot product with itself. -/
theorem Vec3.dot_self_pos (v : Vec3) (h : v ≠ Vec3.zero) : 0 < v.dot v := by
  rcases v with ⟨x, y, z⟩
  unfold Vec3.dot
  by_contra hc
  push_neg at hc
  apply h
  have hx : x * x = 0 :=
    le_antisymm (by nlinarith [mul_self_nonneg y, mul_self_nonneg z]) (mul_self_nonneg x)
  have hy : y * y = 0 :=
    le_antisymm (by nlinarith [mul_self_nonneg x, mul_self_nonneg z]) (mul_self_nonneg y)
  have hz : z * z = 0 :=
    le_antisymm (by nlinarith [mul_self_nonneg x, mul_self_nonneg y]) (mul_self_nonneg z)
  have : x = 0 := mul_self_eq_zero.mp hx
  have : y = 0 := mul_self_eq_zero.mp hy
  have : z = 0 := mul_self_eq_zero.mp hz
  simp_all [Vec3.zero]

/-- The braking subdivision loop zeroes the velocity on its early exit and
otherwise keeps the dot product with the entry velocity positive. -/
theorem brakingLoop_invariant (friction : ℚ) (revAccel oldVel : Vec3) (bz : Bool)
    (fuel : ℕ) :
    ∀ (rt : ℚ) (v : Vec3), 0 < v.dot oldVel →
      ((brakingLoop friction revAccel oldVel bz fuel rt v).2 = true →
        (brakingLoop friction revAccel oldVel bz fuel rt v).1 = Vec3.zero)
      ∧ ((brakingLoop friction revAccel oldVel bz fuel rt v).2 = false →
        0 < (brakingLoop friction revAccel oldVel bz fuel rt v).1.dot oldVel) := by
  induction fuel with
  | zero =>
    intro rt v hv
    exact ⟨fun h => absurd h (by simp [brakingLoop]), fun _ => by simpa [brakingLoop] using hv⟩
  | succ n ih =>
    intro rt v hv
    simp only [brakingLoop]
    split
    · split
      · exact ⟨fun _ => rfl, fun h => absurd h (by simp)⟩
      · rename_i hdot
        exact ih _ _ (lt_of_not_le hdot)
    · exact ⟨fun h => absurd h (by simp), fun _ => hv⟩

/-- Case analysis of the final clamp of `ApplyVelocityBraking` (lines
373-378): either the velocity is zeroed, or it survives with its positive dot
product and a speed above both thresholds. -/
theorem brakingClampCases (tol bd : ℚ) (w u : Vec3) (hw : 0 < w.dot u) :
    (0 ≤ (if w.sizeSquared ≤ tol ^ 2 ∨ (¬bd = 0 ∧ w.sizeSquared ≤ BRAKE_TO_STOP_VELOCITY ^ 2)
          then Vec3.zero else w).dot u)
    ∧ ((if w.sizeSquared ≤ tol ^ 2 ∨ (¬bd = 0 ∧ w.sizeSquared ≤ BRAKE_TO_STOP_VELOCITY ^ 2)
          then Vec3.zero else w) = Vec3.zero
       ∨ (0 < (if w.sizeSquared ≤ tol ^ 2 ∨ (¬bd = 0 ∧ w.sizeSquared ≤ BRAKE_TO_STOP_VELOCITY ^ 2)
              then Vec3.zero else w).dot u
          ∧ tol ^ 2 < (if w.sizeSquared ≤ tol ^ 2
              ∨ (¬bd = 0 ∧ w.sizeSquared ≤ BRAKE_TO_STOP_VELOCITY ^ 2)
              then Vec3.zero else w).sizeSquared
          ∧ (bd ≠ 0 → BRAKE_TO_STOP_VELOCITY ^ 2 < (if w.sizeSquared ≤ tol ^ 2
              ∨ (¬bd = 0 ∧ w.sizeSquared ≤ BRAKE_TO_STOP_VELOCITY ^ 2)
              then Vec3.zero else w).sizeSquared))) := by
  split
  · constructor
    · simp [Vec3.dot, Vec3.zero]
    · left
      rfl
  · rename_i hcl
    push_neg at hcl
    exact ⟨hw.le, Or.inr ⟨hw, hcl.1, fun hb => hcl.2 hb⟩⟩

set_option maxHeartbeats 1000000 in
/-- C10: `ApplyVelocityBraking` never reverses the direction of motion: the
returned velocity always has a non-negative dot product with the incoming
velocity; and whenever the braking path actually runs (valid data, no root
motion, a full tick, friction or braking non-zero after clamping to
non-negative), the result is either exactly the zero vector (as it is whenever
friction plus braking crosses zero within the tick, or the resulting speed is
at or below `BrakingSpeedTolerance`, or at or below the brake-to-stop
threshold while braking is non-zero) or it keeps a strictly positive dot
product with the incoming velocity and a speed strictly above both
thresholds. -/
theorem claim_C10_applyVelocityBraking_no_reversal (s : BrakingState)
    (deltaTime friction0 brakingDeceleration0 : ℚ) (velocitySafeNormal : Vec3) (fuel : ℕ) :
    0 ≤ (ApplyVelocityBraking s deltaTime friction0 brakingDeceleration0
          velocitySafeNormal fuel).dot s.velocity
    ∧ (s.hasValidData = true → s.hasAnimRootMotion = false → MIN_TICK_TIME ≤ deltaTime →
        ¬(max 0 (friction0 * max 0 (getBrakingFrictionFactor s)) = 0
          ∧ max 0 brakingDeceleration0 = 0) →
        ApplyVelocityBraking s deltaTime friction0 brakingDeceleration0
            velocitySafeNormal fuel = Vec3.zero
        ∨ (0 < (ApplyVelocityBraking s deltaTime friction0 brakingDeceleration0
              velocitySafeNormal fuel).dot s.velocity
           ∧ s.brakingSpeedTolerance ^ 2 < (ApplyVelocityBraking s deltaTime friction0
              brakingDeceleration0 velocitySafeNormal fuel).sizeSquared
           ∧ (max 0 brakingDeceleration0 ≠ 0 →
              BRAKE_TO_STOP_VELOCITY ^ 2 < (ApplyVelocityBraking s deltaTime friction0
                brakingDeceleration0 velocitySafeNormal fuel).sizeSquared))) := by
  simp only [ApplyVelocityBraking]
  split
  · rename_i hskip
    refine ⟨Vec3.dot_self_nonneg s.velocity, ?_⟩
    intro hvd hrm hdt _
    rcases hskip with h | h | h | h
    · left
      have : s.velocity = Vec3.zero := by
        have := of_decide_eq_true h
        exact this
      rw [this]
    · exact absurd hvd h
    · rw [hrm] at h
      exact absurd h (by simp)
    · exact absurd hdt (not_le.mpr h)
  · rename_i hrun
    split
    · rename_i hzz
      refine ⟨Vec3.dot_self_nonneg s.velocity, ?_⟩
      intro _ _ _ hnz
      exact absurd hzz hnz
    · rename_i hzz
      have hvz : s.velocity ≠ Vec3.zero := by
        intro hcon
        apply hrun
        left
        unfold Vec3.isZero
        rw [hcon]
        exact decide_eq_true rfl
      have hpos : 0 < s.velocity.dot s.velocity := Vec3.dot_self_pos s.velocity hvz
      have hinv := brakingLoop_invariant
        (max 0 (friction0 * max 0 (getBrakingFrictionFactor s)))
        (if max 0 brakingDeceleration0 = 0 then Vec3.zero
         else Vec3.scale (max 0 brakingDeceleration0) velocitySafeNormal)
        s.velocity (decide (max 0 (friction0 * max 0 (getBrakingFrictionFactor s)) = 0))
        fuel deltaTime s.velocity hpos
      rcases hres : brakingLoop
          (max 0 (friction0 * max 0 (getBrakingFrictionFactor s)))
          (if max 0 brakingDeceleration0 = 0 then Vec3.zero
           else Vec3.scale (max 0 brakingDeceleration0) velocitySafeNormal)
          s.velocity (decide (max 0 (friction0 * max 0 (getBrakingFrictionFactor s)) = 0))
          fuel deltaTime s.velocity with ⟨v, b⟩
      rw [hres] at hinv
      cases b with
      | true =>
        have hv0 : v = Vec3.zero := hinv.1 rfl
        subst hv0
        constructor
        · simp [Vec3.dot, Vec3.zero]
        · intro _ _ _ _
          left
          rfl
      | false =>
        have hdotpos : 0 < v.dot s.velocity := hinv.2 rfl
        have hc := brakingClampCases s.brakingSpeedTolerance (max 0 brakingDeceleration0)
          v s.velocity hdotpos
        exact ⟨hc.1, fun _ _ _ _ => hc.2⟩

/-- Witness for C3 at the default speed configuration (walk 165, run 375,
sprint 600; crouched walk 150, run 200). -/
theorem claim_C3_witness :
    getRangePct 0 165 165 = 1 + getRangePct 165 375 165
    ∧ 1 + getRangePct 165 375 375 = 2 + getRangePct 375 600 375
    ∧ 2 + getRangePct 375 600 600 = 3
    ∧ 0 ≤ gaitScaleStanding 165 375 600 300 ∧ gaitScaleStanding 165 375 600 300 ≤ 3
    ∧ gaitScaleStanding 165 375 600 200 ≤ gaitScaleStanding 165 375 600 300
    ∧ 0 ≤ gaitScaleCrouched 150 200 175 ∧ gaitScaleCrouched 150 200 175 ≤ 2 := by
  have h := claim_C3_gaitScale_monotone_continuous_bounded 165 375 600 150 200
    (by decide) (by decide) (by decide) (by decide) (by decide)
  exact ⟨h.2.2.2.1, h.2.2.2.2.1, h.2.2.2.2.2.1,
    (h.2.2.2.2.2.2.1 300 (by decide)).1, (h.2.2.2.2.2.2.1 300 (by decide)).2,
    h.2.1 200 300 (by decide) (by decide) (by decide),
    (h.2.2.2.2.2.2.2.2.2.2.2 175 (by decide)).1,
    (h.2.2.2.2.2.2.2.2.2.2.2 175 (by decide)).2⟩

/-- Witness for C10: braking a 100-unit-per-second velocity over a one-second
tick with walking braking deceleration 400. -/
theorem claim_C10_witness :
    0 ≤ (ApplyVelocityBraking
        { velocity := ⟨100, 0, 0⟩, hasValidData := true, hasAnimRootMotion := false
          isRagdoll := false, isLanding := false, brakingFrictionFactor := 1
          brakingFrictionFactorRagdoll := 0, brakingFrictionFactorLanding := 0
          brakingSpeedTolerance := 1 } 1 0 400 ⟨1, 0, 0⟩ 8).dot ⟨100, 0, 0⟩
    ∧ (ApplyVelocityBraking
        { velocity := ⟨100, 0, 0⟩, hasValidData := true, hasAnimRootMotion := false
          isRagdoll := false, isLanding := false, brakingFrictionFactor := 1
          brakingFrictionFactorRagdoll := 0, brakingFrictionFactorLanding := 0
          brakingSpeedTolerance := 1 } 1 0 400 ⟨1, 0, 0⟩ 8 = Vec3.zero
      ∨ (0 < (ApplyVelocityBraking
          { velocity := ⟨100, 0, 0⟩, hasValidData := true, hasAnimRootMotion := false
            isRagdoll := false, isLanding := false, brakingFrictionFactor := 1
            brakingFrictionFactorRagdoll := 0, brakingFrictionFactorLanding := 0
            brakingSpeedTolerance := 1 } 1 0 400 ⟨1, 0, 0⟩ 8).dot ⟨100, 0, 0⟩
         ∧ (1 : ℚ) ^ 2 < (ApplyVelocityBraking
            { velocity := ⟨100, 0, 0⟩, hasValidData := true, hasAnimRootMotion := false
              isRagdoll := false, isLanding := false, brakingFrictionFactor := 1
              brakingFrictionFactorRagdoll := 0, brakingFrictionFactorLanding := 0
              brakingSpeedTolerance := 1 } 1 0 400 ⟨1, 0, 0⟩ 8).sizeSquared
         ∧ (max 0 (400 : ℚ) ≠ 0 → BRAKE_TO_STOP_VELOCITY ^ 2 < (ApplyVelocityBraking
            { velocity := ⟨100, 0, 0⟩, hasValidData := true, hasAnimRootMotion := false
              isRagdoll := false, isLanding := false, brakingFrictionFactor := 1
              brakingFrictionFactorRagdoll := 0, brakingFrictionFactorLanding := 0
              brakingSpeedTolerance := 1 } 1 0 400 ⟨1, 0, 0⟩ 8).sizeSquared))) := by
  have h := claim_C10_applyVelocityBraking_no_reversal
    { velocity := ⟨100, 0, 0⟩, hasValidData := true, hasAnimRootMotion := false
      isRagdoll := false, isLanding := false, brakingFrictionFactor := 1
      brakingFrictionFactorRagdoll := 0, brakingFrictionFactorLanding := 0
      brakingSpeedTolerance := 1 } 1 0 400 ⟨1, 0, 0⟩ 8
  exact ⟨h.1, h.2 rfl rfl (by norm_num [MIN_TICK_TIME])
    (by norm_num [getBrakingFrictionFactor])⟩

/-- C9: `PredictStopLocation` fails, returning no location at all, whenever
the component has invalid data, the step size is non-positive (below
`MIN_TICK_TIME`), the time horizon is smaller than the step, or the current
movement mode is any mode other than Walking, NavWalking or Flying (falling
and swimming included), for every normalisation and size oracle and every
iteration budget. -/
theorem claim_C9_predictStopLocation_failure (norm3 : Vec3 → Vec3) (sizeOf3 : Vec3 → ℚ)
    (s : StopPredictionState) (timeLimit timeStep : ℚ) (fuel : ℕ)
    (h : s.hasValidData = false ∨ timeStep ≤ 0 ∨ timeLimit < timeStep
      ∨ (s.movementMode ≠ MOVE_Walking ∧ s.movementMode ≠ MOVE_NavWalking
         ∧ s.movementMode ≠ MOVE_Flying)) :
    PredictStopLocation norm3 sizeOf3 s timeLimit timeStep fuel = none := by
  unfold PredictStopLocation
  split
  · rfl
  · split
    · rfl
    · split
      · rfl
      · rename_i hvd hrole htime
        rcases h with h | h | h | h
        · rw [h] at hvd
          exact absurd (by simp) hvd
        · push_neg at htime
          have : MIN_TICK_TIME ≤ timeStep := htime.1
          exact absurd this (by rw [MIN_TICK_TIME]; intro hc; linarith)
        · push_neg at htime
          exact absurd htime.2 (not_le.mpr h)
        · have hmode : predictStopFrictionByMode s = none := by
            unfold predictStopFrictionByMode
            rcases h with ⟨h1, h2, h3⟩
            cases hm : s.movementMode <;> simp_all
          rw [hmode]

/-- Witness for C9: a zero step size makes the prediction fail. -/
theorem claim_C9_witness :
    PredictStopLocation (fun v => v) (fun _ => 0)
      { hasValidData := true, isReplicated := false, localRoleBelowAuthority := false
        movementMode := MOVE_Walking, groundFriction := 6, fluidFriction := 0
        isRagdoll := false, isLanding := false, brakingFrictionFactor := 1
        brakingFrictionFactorRagdoll := 0, brakingFrictionFactorLanding := 0
        brakingDecelerationWalking := 400, brakingDecelerationFalling := 0
        brakingDecelerationSwimming := 100, brakingDecelerationFlying := 500
        brakingDecelerationRagdoll := 0, brakingDecelerationLanding := 50
        bUseSeparateBrakingFriction := false, brakingFriction := 0
        brakingSpeedTolerance := 1, acceleration := ⟨0, 0, 0⟩
        velocity := ⟨100, 0, 0⟩, location := ⟨0, 0, 0⟩ } 1 0 3 = none :=
  claim_C9_predictStopLocation_failure (fun v => v) (fun _ => 0) _ 1 0 3
    (Or.inr (Or.inl (by decide)))

/-- The common tail of the stationary turn-in-place branch resets the target
yaw to the `+infinity` sentinel whenever it exits through the reached-target
return. -/
theorem turnStepCommonTail_reached (cfg : TurnInPlaceConfig) (yaw1 : FloatInf)
    (counter1 : ℚ) (canEnforce1 : Bool) (currentYaw1 deltaSeconds : ℚ) :
    (turnStepCommonTail cfg yaw1 counter1 canEnforce1 currentYaw1 deltaSeconds).outcome
        = TurnStepOutcome.reachedTarget →
    (turnStepCommonTail cfg yaw1 counter1 canEnforce1 currentYaw1 deltaSeconds).state.turnInPlaceTargetYaw
        = FloatInf.posInf := by
  simp only [turnStepCommonTail]
  split
  · intro _
    rfl
  · intro h
    simp at h

/-- The stationary turn-in-place core resets the target yaw to `+infinity`
whenever it exits through the reached-target return. -/
theorem stationaryCore_reached (cfg : TurnInPlaceConfig) (yaw0 : FloatInf)
    (timeCounter0 : ℚ) (canEnforce0 : Bool) (currentYaw controlYaw deltaSeconds : ℚ) :
    (stationaryTurnInPlaceCore cfg yaw0 timeCounter0 canEnforce0
        currentYaw controlYaw deltaSeconds).outcome = TurnStepOutcome.reachedTarget →
    (stationaryTurnInPlaceCore cfg yaw0 timeCounter0 canEnforce0
        currentYaw controlYaw deltaSeconds).state.turnInPlaceTargetYaw = FloatInf.posInf := by
  simp only [stationaryTurnInPlaceCore]
  split
  · apply turnStepCommonTail_reached
  · apply turnStepCommonTail_reached

/-- C7: the turn-in-place target yaw uses `+infinity` as the "not turning"
sentinel and `-infinity` as the "suspended" sentinel: `ResetTurnInPlaceState`
suspends by writing `-infinity`; the restore step maps `-infinity` back to
`+infinity` and leaves every other value alone; when turn-in-place processing
resumes (stationary, orient-to-controller, turn-in-place allowed), a suspended
state behaves exactly as one restored to `+infinity` — the restore happens
before any new turn step is computed; and whenever the rotation reaches its
target the target yaw is set back to `+infinity`. -/
theorem claim_C7_turnInPlace_sentinels :
    (∀ st : TurnInPlaceState, (ResetTurnInPlaceState st).turnInPlaceTargetYaw = FloatInf.negInf)
    ∧ restoreFromSuspension FloatInf.negInf = FloatInf.posInf
    ∧ (∀ y : FloatInf, y ≠ FloatInf.negInf → restoreFromSuspension y = y)
    ∧ (∀ (cfg : TurnInPlaceConfig) (timeCounter : ℚ) (canEnforce : Bool)
        (currentYaw controlYaw deltaSeconds : ℚ),
        CanTurnInPlaceInCurrentState cfg = true →
        stationaryTurnInPlaceUpdate cfg ⟨FloatInf.negInf, timeCounter, canEnforce⟩
            currentYaw controlYaw deltaSeconds
          = stationaryTurnInPlaceUpdate cfg ⟨FloatInf.posInf, timeCounter, canEnforce⟩
            currentYaw controlYaw deltaSeconds)
    ∧ (∀ (cfg : TurnInPlaceConfig) (st : TurnInPlaceState)
        (currentYaw controlYaw deltaSeconds : ℚ),
        (stationaryTurnInPlaceUpdate cfg st currentYaw controlYaw deltaSeconds).outcome
            = TurnStepOutcome.reachedTarget →
        (stationaryTurnInPlaceUpdate cfg st currentYaw
            controlYaw deltaSeconds).state.turnInPlaceTargetYaw = FloatInf.posInf) := by
  refine ⟨fun st => rfl, ?_, ?_, ?_, ?_⟩
  · simp [restoreFromSuspension, FloatInf.isFinite, FloatInf.ltZero]
  · intro y hy
    cases y with
    | finite v => simp [restoreFromSuspension, FloatInf.isFinite]
    | posInf => simp [restoreFromSuspension, FloatInf.isFinite, FloatInf.ltZero]
    | negInf => exact absurd rfl hy
  · intro cfg timeCounter canEnforce currentYaw controlYaw deltaSeconds hcan
    unfold stationaryTurnInPlaceUpdate
    rw [if_pos hcan, if_pos hcan]
    have hr : restoreFromSuspension FloatInf.negInf = restoreFromSuspension FloatInf.posInf := by
      simp [restoreFromSuspension, FloatInf.isFinite, FloatInf.ltZero]
    simp only [hr]
  · intro cfg st currentYaw controlYaw deltaSeconds
    unfold stationaryTurnInPlaceUpdate
    split
    · apply stationaryCore_reached
    · intro hout
      simp at hout

/-- Witness for C7: a character already facing the control rotation with
turn-in-place allowed; suspension behaves like the `+infinity` sentinel and
the reached-target exit restores `+infinity`. -/
theorem claim_C7_witness :
    restoreFromSuspension (FloatInf.finite 90) = FloatInf.finite 90
    ∧ stationaryTurnInPlaceUpdate
        { bEnableTurnInPlace := true, hasExtOwner := true, isGettingUp := false
          hasRootMotionSources := false, bUseTurnInPlaceDelay := false
          turnInPlaceDelay := 0, lookAngleThreshold := 60, turnInPlaceMaxDistance := 0
          turnInPlaceSlowThreshold := 15, turnInPlaceRotationRateYaw := 180 }
        ⟨FloatInf.negInf, 0, false⟩ 0 0 1
      = stationaryTurnInPlaceUpdate
        { bEnableTurnInPlace := true, hasExtOwner := true, isGettingUp := false
          hasRootMotionSources := false, bUseTurnInPlaceDelay := false
          turnInPlaceDelay := 0, lookAngleThreshold := 60, turnInPlaceMaxDistance := 0
          turnInPlaceSlowThreshold := 15, turnInPlaceRotationRateYaw := 180 }
        ⟨FloatInf.posInf, 0, false⟩ 0 0 1 := by
  have h := claim_C7_turnInPlace_sentinels
  exact ⟨h.2.2.1 (FloatInf.finite 90) (by simp), h.2.2.2.1
    { bEnableTurnInPlace := true, hasExtOwner := true, isGettingUp := false
      hasRootMotionSources := false, bUseTurnInPlaceDelay := false
      turnInPlaceDelay := 0, lookAngleThreshold := 60, turnInPlaceMaxDistance := 0
      turnInPlaceSlowThreshold := 15, turnInPlaceRotationRateYaw := 180 }
    0 false 0 0 1 (by decide)⟩

end TPCA
